import Mathlib

/-!
Verification development for the Distributed Multi-Agent Orchestration
control plane.  The Python sources under `src/services/orchestrator/core`
(`task_scheduler.py`, `agent_manager.py`), `src/shared/events/consumers.py`
and `src/services/orchestrator/services/webhook_service.py` are shallowly
embedded as pure Lean functions over an explicit scheduler state; the
database session becomes explicit state passing, timestamps become integer
parameters, and published events are accumulated in an event list.
-/

namespace Orchestration

/-- Task statuses, from `shared/models/schemas.py` (`TaskStatus`). -/
inductive TaskStatus
  | pending
  | queued
  | in_progress
  | completed
  | failed
  | cancelled
  | retrying
  deriving DecidableEq, Repr

/-- Agent statuses, from `shared/models/schemas.py` (`AgentStatus`). -/
inductive AgentStatus
  | idle
  | busy
  | offline
  | failed
  | starting
  | stopping
  deriving DecidableEq, Repr

/-- Agent types, from `shared/models/schemas.py` (`AgentType`). -/
inductive AgentType
  | orchestrator
  | worker
  | specialist
  | research
  | analysis
  | coordinator
  deriving DecidableEq, Repr

/-- The `output_data` JSON column of a task: either `{"result": ...}` set by
`complete_task` or `{"error": ...}` set by the terminal branch of `fail_task`. -/
inductive OutputData
  | result (r : String)
  | error (e : String)
  deriving DecidableEq, Repr

/-- A task row (`shared/database/models.py` `Task`), restricted to the columns
and `metadata_` keys the scheduler operations read or write.  `retry_count`,
`last_error` and `progress` live inside the JSON `metadata_` column in the
source. -/
structure Task where
  id : Nat
  description : String
  priority : Int
  status : TaskStatus
  agent_id : Option Nat := none
  retry_count : Nat := 0
  last_error : Option String := none
  progress : Option Int := none
  progress_message : Option String := none
  output_data : Option OutputData := none
  deadline : Option Int := none
  created_at : Int := 0
  started_at : Option Int := none
  completed_at : Option Int := none
  updated_at : Option Int := none
  deriving DecidableEq, Repr

/-- An agent row (`shared/database/models.py` `Agent`), restricted to the
columns the scheduler and agent manager operations touch.  `skills` is the
`capabilities["skills"]` list. -/
structure Agent where
  id : Nat
  type : AgentType
  status : AgentStatus
  skills : List String := []
  last_heartbeat : Int := 0
  updated_at : Int := 0
  deriving DecidableEq, Repr

/-- Events published through `shared/events/producers.py` by the scheduler
operations, with the exact arguments the call sites pass. -/
inductive Event
  | task_assigned (task_id : Nat) (agent_id : Nat)
  | task_started (task_id : Nat) (agent_id : Option Nat)
  | task_progress (task_id : Nat) (agent_id : Option Nat) (progress : Int)
  | task_completed (task_id : Nat) (agent_id : Option Nat)
  | task_failed (task_id : Nat) (agent_id : Option Nat) (error : String) (retry_count : Nat)
  deriving DecidableEq, Repr

/-- The durable state the scheduler operations act on: the `tasks`, `agents`
and `task_dependencies` tables, plus the stream of published events.  A
dependency pair `(t, d)` is a `TaskDependency` row with `task_id = t` and
`depends_on_task_id = d`. -/
structure SchedulerState where
  tasks : List Task := []
  agents : List Agent := []
  deps : List (Nat × Nat) := []
  events : List Event := []
  deriving DecidableEq, Repr

/-- `TaskScheduler.get_task`: `SELECT ... WHERE Task.id == task_id`
(`scalar_one_or_none`; ids are unique, so the first match is the row). -/
def getTask (s : SchedulerState) (task_id : Nat) : Option Task :=
  s.tasks.find? (fun t => t.id == task_id)

/-- `session.get(Agent, agent_id)` / `AgentManager.get_agent`. -/
def getAgent (s : SchedulerState) (agent_id : Nat) : Option Agent :=
  s.agents.find? (fun a => a.id == agent_id)

/-- Writing a mutated task row back (the ORM mutates the row in place; here
the row with the same id is replaced). -/
def setTask (s : SchedulerState) (t : Task) : SchedulerState :=
  { s with tasks := s.tasks.map (fun u => if u.id == t.id then t else u) }

/-- Writing a mutated agent row back. -/
def setAgent (s : SchedulerState) (a : Agent) : SchedulerState :=
  { s with agents := s.agents.map (fun u => if u.id == a.id then a else u) }

/-- Appending a published event. -/
def publish (s : SchedulerState) (e : Event) : SchedulerState :=
  { s with events := s.events ++ [e] }

/-- `TaskScheduler.assign_task` (task_scheduler.py lines 196-250): rejects
when the task is missing or its status is not `pending`/`queued`, or when the
agent is missing or not `idle`; otherwise moves the task to `queued` bound to
the agent, the agent to `busy`, and publishes `task.assigned`. -/
def assign_task (s : SchedulerState) (task_id agent_id : Nat) (now : Int) :
    Bool × SchedulerState :=
  match getTask s task_id with
  | none => (false, s)
  | some task =>
    if task.status = TaskStatus.pending ∨ task.status = TaskStatus.queued then
      match getAgent s agent_id with
      | none => (false, s)
      | some agent =>
        if agent.status = AgentStatus.idle then
          let task := { task with
            agent_id := some agent_id,
            status := TaskStatus.queued,
            updated_at := some now }
          let agent := { agent with status := AgentStatus.busy, updated_at := now }
          let s := setAgent (setTask s task) agent
          (true, publish s (Event.task_assigned task_id agent_id))
        else (false, s)
    else (false, s)

/-- `TaskScheduler.start_task` (lines 252-277): `queued` to `in_progress`,
records `started_at`, publishes `task.started`. -/
def start_task (s : SchedulerState) (task_id : Nat) (now : Int) :
    Bool × SchedulerState :=
  match getTask s task_id with
  | none => (false, s)
  | some task =>
    if task.status = TaskStatus.queued then
      let task := { task with
        status := TaskStatus.in_progress,
        started_at := some now,
        updated_at := some now }
      (true, publish (setTask s task) (Event.task_started task_id task.agent_id))
    else (false, s)

/-- `TaskScheduler.update_task_progress` (lines 279-307): only on
`in_progress` tasks; stores `metadata_["progress"]` (and the message when it
is non-empty, mirroring the truthiness test `if message:`), publishes
`task.progress`. -/
def update_task_progress (s : SchedulerState) (task_id : Nat) (progress : Int)
    (message : Option String) (now : Int) : Bool × SchedulerState :=
  match getTask s task_id with
  | none => (false, s)
  | some task =>
    if task.status = TaskStatus.in_progress then
      let task := { task with
        progress := some progress,
        progress_message :=
          match message with
          | some m => if m = "" then task.progress_message else some m
          | none => task.progress_message,
        updated_at := some now }
      (true, publish (setTask s task) (Event.task_progress task_id task.agent_id progress))
    else (false, s)

/-- `TaskScheduler.complete_task` (lines 309-355): only on `in_progress`
tasks; sets `completed`, `completed_at`, `output_data = {"result": result}`;
if the task has an owning agent that exists, that agent is set to `idle`
with no check of its previous status; publishes `task.completed`. -/
def complete_task (s : SchedulerState) (task_id : Nat) (result : String)
    (now : Int) : Bool × SchedulerState :=
  match getTask s task_id with
  | none => (false, s)
  | some task =>
    if task.status = TaskStatus.in_progress then
      let task := { task with
        status := TaskStatus.completed,
        completed_at := some now,
        updated_at := some now,
        output_data := some (OutputData.result result) }
      let s1 :=
        match task.agent_id with
        | some aid =>
          match getAgent s aid with
          | some agent =>
            setAgent s { agent with status := AgentStatus.idle, updated_at := now }
          | none => s
        | none => s
      (true, publish (setTask s1 task) (Event.task_completed task_id task.agent_id))
    else (false, s)

/-- `TaskScheduler.fail_task` (lines 357-430): looks the task up with no
status guard; when `retry` is requested and `metadata_["retry_count"]` is
below `max_retries` the task moves to `retrying` with the count incremented
and `agent_id` cleared, otherwise to `failed` with
`output_data = {"error": error}`.  The agent-release block then tests
`task.agent_id` on the already mutated row, and `publish_task_failed`
receives the mutated row's `agent_id` and the pre-increment `retry_count`. -/
def fail_task (s : SchedulerState) (task_id : Nat) (error : String)
    (retry : Bool) (max_retries : Nat) (now : Int) : Bool × SchedulerState :=
  match getTask s task_id with
  | none => (false, s)
  | some task0 =>
    let retry_count := task0.retry_count
    let task :=
      if retry ∧ retry_count < max_retries then
        { task0 with
          status := TaskStatus.retrying,
          retry_count := retry_count + 1,
          last_error := some error,
          agent_id := none,
          updated_at := some now }
      else
        { task0 with
          status := TaskStatus.failed,
          completed_at := some now,
          updated_at := some now,
          output_data := some (OutputData.error error) }
    let s1 :=
      match task.agent_id with
      | some aid =>
        match getAgent s aid with
        | some agent =>
          setAgent s { agent with status := AgentStatus.idle, updated_at := now }
        | none => s
      | none => s
    (true, publish (setTask s1 task) (Event.task_failed task_id task.agent_id error retry_count))

/-- `TaskScheduler.cancel_task` (lines 432-465): only from
`pending`/`queued`; sets `cancelled` and `completed_at`, releases the owning
agent if any; no event is published by this operation. -/
def cancel_task (s : SchedulerState) (task_id : Nat) (now : Int) :
    Bool × SchedulerState :=
  match getTask s task_id with
  | none => (false, s)
  | some task =>
    if task.status = TaskStatus.pending ∨ task.status = TaskStatus.queued then
      let task := { task with
        status := TaskStatus.cancelled,
        completed_at := some now,
        updated_at := some now }
      let s1 :=
        match task.agent_id with
        | some aid =>
          match getAgent s aid with
          | some agent =>
            setAgent s { agent with status := AgentStatus.idle, updated_at := now }
          | none => s
        | none => s
      (true, setTask s1 task)
    else (false, s)

/-- `TaskScheduler.add_dependency` (lines 467-495): rejects self-edges and
missing endpoints, then inserts the `TaskDependency` row; the commit fails
(and the operation returns `False` after rollback) exactly when the unique
constraint `uq_task_dependency` on the pair is violated.  No cycle check is
performed. -/
def add_dependency (s : SchedulerState) (task_id depends_on_task_id : Nat) :
    Bool × SchedulerState :=
  if task_id = depends_on_task_id then (false, s)
  else
    match getTask s task_id, getTask s depends_on_task_id with
    | some _, some _ =>
      if (task_id, depends_on_task_id) ∈ s.deps then (false, s)
      else (true, { s with deps := s.deps ++ [(task_id, depends_on_task_id)] })
    | _, _ => (false, s)

/-- The dependency-completion filter inside `get_ready_tasks` (lines
517-533): every dependency row of the task whose target row exists must be
`completed` (a dangling `depends_on_task_id` passes, mirroring
`if dep_task and dep_task.status != COMPLETED`). -/
def depsCompleted (s : SchedulerState) (t : Task) : Bool :=
  (s.deps.filter (fun d => d.1 == t.id)).all (fun d =>
    match getTask s d.2 with
    | some dep_task => dep_task.status == TaskStatus.completed
    | none => true)

/-- The SQL sort key of `get_ready_tasks`:
`ORDER BY priority DESC, created_at ASC`. -/
def TaskOrder (a b : Task) : Prop :=
  b.priority < a.priority ∨ (a.priority = b.priority ∧ a.created_at ≤ b.created_at)

instance : DecidableRel TaskOrder := fun a b => by
  unfold TaskOrder; infer_instance

instance : IsTotal Task TaskOrder := by
  constructor
  intro a b
  unfold TaskOrder
  rcases lt_trichotomy a.priority b.priority with h | h | h
  · exact Or.inr (Or.inl h)
  · rcases le_total a.created_at b.created_at with h2 | h2
    · exact Or.inl (Or.inr ⟨h, h2⟩)
    · exact Or.inr (Or.inr ⟨h.symm, h2⟩)
  · exact Or.inl (Or.inl h)

instance : IsTrans Task TaskOrder := by
  constructor
  intro a b c hab hbc
  unfold TaskOrder at *
  rcases hab with h1 | ⟨h1, h1c⟩
  · rcases hbc with h2 | ⟨h2, _⟩
    · exact Or.inl (h2.trans h1)
    · exact Or.inl (h2 ▸ h1)
  · rcases hbc with h2 | ⟨h2, h2c⟩
    · exact Or.inl (h1 ▸ h2)
    · exact Or.inr ⟨h1.trans h2, h1c.trans h2c⟩

/-- `TaskScheduler.get_ready_tasks` (lines 497-535): select tasks whose
status is `pending` or `retrying`, ordered by priority descending then
creation time ascending, truncate to `limit` candidates, and keep the
candidates whose dependencies are all completed.  The limit is applied to
the candidate query, before the dependency filter. -/
def get_ready_tasks (s : SchedulerState) (limit : Nat) : List Task :=
  let candidates :=
    ((s.tasks.filter (fun t =>
        t.status == TaskStatus.pending || t.status == TaskStatus.retrying)).insertionSort
      TaskOrder).take limit
  candidates.filter (depsCompleted s)

/-- The optional agent-type filter of `get_available_agent`. -/
def agentTypeMatches (agent_type : Option AgentType) (a : Agent) : Bool :=
  match agent_type with
  | none => true
  | some ty => a.type == ty

/-- The SQL sort key of `get_available_agent`: `ORDER BY last_heartbeat DESC`. -/
def HeartbeatOrder (a b : Agent) : Prop :=
  b.last_heartbeat ≤ a.last_heartbeat

instance : DecidableRel HeartbeatOrder := fun a b => by
  unfold HeartbeatOrder; infer_instance

instance : IsTotal Agent HeartbeatOrder := by
  constructor
  intro a b
  exact (le_total b.last_heartbeat a.last_heartbeat).imp id id

instance : IsTrans Agent HeartbeatOrder := by
  constructor
  intro a b c hab hbc
  exact le_trans hbc hab

/-- `AgentManager.get_available_agent` (agent_manager.py lines 297-324):
select `idle` agents matching the optional type, order by `last_heartbeat`
descending, take the single top row; only then, when capabilities are
required, check that this one candidate has them all and return no agent
otherwise.  An empty required list skips the check in the source
(`if agent and required_capabilities:`), which coincides with `all` over an
empty list. -/
def get_available_agent (s : SchedulerState) (agent_type : Option AgentType)
    (required_capabilities : List String) : Option Agent :=
  let candidates := s.agents.filter (fun a =>
    a.status == AgentStatus.idle && agentTypeMatches agent_type a)
  match (candidates.insertionSort HeartbeatOrder).head? with
  | none => none
  | some agent =>
    if required_capabilities.all (fun c => agent.skills.contains c) then some agent
    else none

/-- `AgentManager.update_agent_status` (lines 189-226): looks the agent up
and, when found, applies the requested status unconditionally, stamping
`last_heartbeat` when the new status is `idle` or `busy`; returns the
updated row.  There is no transition validation. -/
def update_agent_status (s : SchedulerState) (agent_id : Nat)
    (status : AgentStatus) (now : Int) : Option Agent × SchedulerState :=
  match getAgent s agent_id with
  | none => (none, s)
  | some agent0 =>
    let agent1 := { agent0 with status := status, updated_at := now }
    let agent2 :=
      if status = AgentStatus.idle ∨ status = AgentStatus.busy then
        { agent1 with last_heartbeat := now }
      else agent1
    (some agent2, setAgent s agent2)

/-- Bounded DFS reachability over the dependency edge list: `reachableB deps
fuel src tgt` holds when a directed path `src` to `tgt` of length at most
`fuel` exists along `(task, depends_on)` edges. -/
def reachableB (deps : List (Nat × Nat)) : Nat → Nat → Nat → Bool
  | 0, src, tgt => src == tgt
  | fuel + 1, src, tgt =>
    src == tgt ||
      (deps.filter (fun d => d.1 == src)).any (fun d => reachableB deps fuel d.2 tgt)

/-- The dependency graph has a directed cycle: some edge `(a, b)` closes a
path from `b` back to `a`. -/
def hasCycle (deps : List (Nat × Nat)) : Bool :=
  deps.any (fun d => reachableB deps deps.length d.2 d.1)

/-! ### Event consumer (`shared/events/consumers.py`) -/

/-- A registered event handler (`EventConsumer.register_handler`): receives
the deserialized event value and either returns or throws. -/
def Handler : Type := String → Except String Unit

/-- A consumed Kafka record, restricted to the fields `consume` and
`_process_message` read: topic coordinates plus the deserialized value's
`event_type` and payload. -/
structure KafkaMessage where
  topic : String
  partition : Nat
  offset : Nat
  event_type : String
  payload : String
  deriving Repr

/-- The `_handlers` registry: `event_type` to its list of handlers
(an association list with unique keys, like the Python dict). -/
def HandlerRegistry : Type := List (String × List Handler)

/-- Dict lookup `self._handlers.get(event_type, [])`. -/
def lookupHandlers (reg : HandlerRegistry) (event_type : String) : List Handler :=
  match reg.find? (fun p => p.1 == event_type) with
  | some p => p.2
  | none => []

/-- Running one handler inside the per-handler `try`/`except` of
`_process_message`: a thrown error is caught and logged, never propagated.
Returns whether the handler completed without throwing. -/
def run_handler (h : Handler) (payload : String) : Bool :=
  match h payload with
  | Except.ok _ => true
  | Except.error _ => false

/-- `EventConsumer._process_message` (consumers.py lines 158-188): dispatch
the record to every registered handler for its `event_type`, catching each
handler's exception individually.  The returned value counts the handlers
that threw; because every handler error is caught inside the method, the
method itself never throws — it always returns `Except.ok`. -/
def process_message (reg : HandlerRegistry) (m : KafkaMessage) :
    Except String Nat :=
  let handlers := lookupHandlers reg m.event_type
  Except.ok ((handlers.filter (fun h => !run_handler h m.payload)).length)

/-- The outcome of one iteration of `EventConsumer.consume` for one record. -/
structure ConsumeOutcome where
  committed_offset : Option Nat
  dead_letter_forward : Option KafkaMessage
  deriving Repr

/-- One iteration of the `consume` loop (consumers.py lines 129-150) for a
single record, with manual commits enabled (`enable_auto_commit = False`,
the default): `_process_message` runs first and, only if it raised, the
commit is skipped.  Nothing in the consumer forwards records to
`dead.letter`. -/
def consume_step (reg : HandlerRegistry) (m : KafkaMessage) : ConsumeOutcome :=
  match process_message reg m with
  | Except.ok _ =>
    { committed_offset := some (m.offset + 1), dead_letter_forward := none }
  | Except.error _ =>
    { committed_offset := none, dead_letter_forward := none }

/-! ### Webhook signing (`services/orchestrator/services/webhook_service.py`)

`_sign_payload` delegates to Python's `hmac`/`hashlib` standard library,
which is outside this repository; HMAC and SHA-256 are therefore embedded
here following FIPS 180-4 and RFC 2104, and the recipient-side check is
modelled from the spec. -/

/-- Two to the thirty-second power, the word modulus of SHA-256. -/
def w32 : Nat := 4294967296

/-- Right rotation of a 32-bit word. -/
def rotr (n x : Nat) : Nat :=
  ((x >>> n) ||| (x <<< (32 - n))) % w32

/-- Logical right shift. -/
def shr (n x : Nat) : Nat := x >>> n

/-- Bitwise complement within 32 bits. -/
def bnot32 (x : Nat) : Nat := x ^^^ 4294967295

/-- SHA-256 choice function. -/
def ch (x y z : Nat) : Nat := (x &&& y) ^^^ (bnot32 x &&& z)

/-- SHA-256 majority function. -/
def maj (x y z : Nat) : Nat := (x &&& y) ^^^ (x &&& z) ^^^ (y &&& z)

/-- SHA-256 big sigma 0. -/
def bsig0 (x : Nat) : Nat := rotr 2 x ^^^ rotr 13 x ^^^ rotr 22 x

/-- SHA-256 big sigma 1. -/
def bsig1 (x : Nat) : Nat := rotr 6 x ^^^ rotr 11 x ^^^ rotr 25 x

/-- SHA-256 small sigma 0. -/
def ssig0 (x : Nat) : Nat := rotr 7 x ^^^ rotr 18 x ^^^ shr 3 x

/-- SHA-256 small sigma 1. -/
def ssig1 (x : Nat) : Nat := rotr 17 x ^^^ rotr 19 x ^^^ shr 10 x

/-- The SHA-256 round constants (FIPS 180-4 section 4.2.2, written in
decimal). -/
def sha256K : List Nat :=
  [1116352408, 1899447441, 3049323471, 3921009573,
   961987163, 1508970993, 2453635748, 2870763221,
   3624381080, 310598401, 607225278, 1426881987,
   1925078388, 2162078206, 2614888103, 3248222580,
   3835390401, 4022224774, 264347078, 604807628,
   770255983, 1249150122, 1555081692, 1996064986,
   2554220882, 2821834349, 2952996808, 3210313671,
   3336571891, 3584528711, 113926993, 338241895,
   666307205, 773529912, 1294757372, 1396182291,
   1695183700, 1986661051, 2177026350, 2456956037,
   2730485921, 2820302411, 3259730800, 3345764771,
   3516065817, 3600352804, 4094571909, 275423344,
   430227734, 506948616, 659060556, 883997877,
   958139571, 1322822218, 1537002063, 1747873779,
   1955562222, 2024104815, 2227730452, 2361852424,
   2428436474, 2756734187, 3204031479, 3329325298]

/-- The working state of the SHA-256 compression function: eight 32-bit
words. -/
structure Sha256State where
  a : Nat
  b : Nat
  c : Nat
  d : Nat
  e : Nat
  f : Nat
  g : Nat
  h : Nat
  deriving Repr

/-- The SHA-256 initial hash value (FIPS 180-4 section 5.3.3, in decimal). -/
def sha256Init : Sha256State :=
  { a := 1779033703, b := 3144134277, c := 1013904242, d := 2773480762,
    e := 1359893119, f := 2600822924, g := 528734635, h := 1541459225 }

/-- The `k` most significant bytes of `n`, big-endian. -/
def bytesBE : Nat → Nat → List Nat
  | 0, _ => []
  | k + 1, n => bytesBE k (n / 256) ++ [n % 256]

/-- SHA-256 message padding: append `0x80`, zero bytes up to 56 mod 64, and
the bit length as an 8-byte big-endian integer. -/
def padMessage (msg : List Nat) : List Nat :=
  let len := msg.length
  let padZeros := (119 - len % 64) % 64
  msg ++ [0x80] ++ List.replicate padZeros 0 ++ bytesBE 8 (len * 8)

/-- Split the padded message into 64-byte blocks. -/
def toBlocks : List Nat → List (List Nat)
  | [] => []
  | x :: rest => ((x :: rest).take 64) :: toBlocks ((x :: rest).drop 64)
termination_by l => l.length
decreasing_by
  simp only [List.drop, List.length_drop, List.length_cons]
  omega

/-- Big-endian word from a list of bytes. -/
def beWord (l : List Nat) : Nat := l.foldl (fun acc x => acc * 256 + x) 0

/-- The sixteen 32-bit words of a 64-byte block. -/
def wordsOfBlock (block : List Nat) : Array Nat :=
  Array.mk ((List.range 16).map (fun i => beWord ((block.drop (4 * i)).take 4)))

/-- Extend the sixteen block words to the sixty-four-entry message
schedule. -/
def extendSchedule (w : Array Nat) : Array Nat :=
  (List.range 48).foldl
    (fun w i =>
      let t := i + 16
      let x := (w.getD (t - 16) 0 + ssig0 (w.getD (t - 15) 0) +
        w.getD (t - 7) 0 + ssig1 (w.getD (t - 2) 0)) % w32
      w.push x)
    w

/-- One SHA-256 round. -/
def sha256Round (w : Array Nat) (st : Sha256State) (i : Nat) : Sha256State :=
  let t1 := (st.h + bsig1 st.e + ch st.e st.f st.g +
    sha256K.getD i 0 + w.getD i 0) % w32
  let t2 := (bsig0 st.a + maj st.a st.b st.c) % w32
  { a := (t1 + t2) % w32, b := st.a, c := st.b, d := st.c,
    e := (st.d + t1) % w32, f := st.e, g := st.f, h := st.g }

/-- The SHA-256 compression function on one 64-byte block. -/
def compressBlock (st0 : Sha256State) (block : List Nat) : Sha256State :=
  let w := extendSchedule (wordsOfBlock block)
  let st := (List.range 64).foldl (sha256Round w) st0
  { a := (st0.a + st.a) % w32, b := (st0.b + st.b) % w32,
    c := (st0.c + st.c) % w32, d := (st0.d + st.d) % w32,
    e := (st0.e + st.e) % w32, f := (st0.f + st.f) % w32,
    g := (st0.g + st.g) % w32, h := (st0.h + st.h) % w32 }

/-- SHA-256 of a byte sequence, as the 32-byte digest. -/
def sha256Bytes (msg : List Nat) : List Nat :=
  let st := (toBlocks (padMessage msg)).foldl compressBlock sha256Init
  bytesBE 4 st.a ++ bytesBE 4 st.b ++ bytesBE 4 st.c ++ bytesBE 4 st.d ++
    bytesBE 4 st.e ++ bytesBE 4 st.f ++ bytesBE 4 st.g ++ bytesBE 4 st.h

/-- HMAC-SHA256 (RFC 2104) with the 64-byte block size: hash an over-long
key, zero-pad, and run the nested inner/outer hashes. -/
def hmacSha256 (key msg : List Nat) : List Nat :=
  let k0 := if 64 < key.length then sha256Bytes key else key
  let kPad := k0 ++ List.replicate (64 - k0.length) 0
  let ipadKey := kPad.map (fun b => b ^^^ 0x36)
  let opadKey := kPad.map (fun b => b ^^^ 0x5c)
  sha256Bytes (opadKey ++ sha256Bytes (ipadKey ++ msg))

/-- The sixteen lowercase hexadecimal digits, in value order. -/
def hexChars : List Char := "0123456789abcdef".toList

theorem hexIndex_lt (n : Nat) : n % 16 < hexChars.length := by
  have h : n % 16 < 16 := Nat.mod_lt n (by decide)
  have hlen : hexChars.length = 16 := rfl
  rw [hlen]
  exact h

/-- The lowercase hexadecimal digit of a nibble. -/
def hexDigit (n : Nat) : Char :=
  hexChars.get ⟨n % 16, hexIndex_lt n⟩

/-- The two lowercase hexadecimal digits of a byte. -/
def byteToHex (b : Nat) : List Char :=
  [hexDigit (b / 16), hexDigit b]

/-- `hexdigest`: the lowercase hexadecimal rendering of a byte sequence. -/
def hexdigest (bytes : List Nat) : String :=
  String.mk (bytes.foldr (fun b acc => byteToHex b ++ acc) [])

/-- UTF-8 encoding of one character (Python `str.encode()`). -/
def utf8EncodeChar (c : Char) : List Nat :=
  let n := c.toNat
  if n < 0x80 then [n]
  else if n < 0x800 then
    [0xc0 ||| (n >>> 6), 0x80 ||| (n &&& 0x3f)]
  else if n < 0x10000 then
    [0xe0 ||| (n >>> 12), 0x80 ||| ((n >>> 6) &&& 0x3f), 0x80 ||| (n &&& 0x3f)]
  else
    [0xf0 ||| (n >>> 18), 0x80 ||| ((n >>> 12) &&& 0x3f),
     0x80 ||| ((n >>> 6) &&& 0x3f), 0x80 ||| (n &&& 0x3f)]

/-- UTF-8 bytes of a string. -/
def strBytes (s : String) : List Nat :=
  s.data.foldr (fun c acc => utf8EncodeChar c ++ acc) []

/-- `WebhookService._sign_payload` (webhook_service.py lines 450-456):
`hmac.new(secret.encode(), payload.encode(), hashlib.sha256).hexdigest()`. -/
def sign_payload (payload secret : String) : String :=
  hexdigest (hmacSha256 (strBytes secret) (strBytes payload))

/-- Modelled from the spec: recipient-side webhook signature verification is
not part of this repository ("Recipients verify by recomputing"); it
recomputes the signature over the payload with the shared secret and
compares. -/
def verify_signature (signature payload secret : String) : Bool :=
  signature == sign_payload payload secret

/-! ### Helper lemmas -/

theorem agents_setTask (s : SchedulerState) (t : Task) :
    (setTask s t).agents = s.agents := rfl

theorem tasks_setAgent (s : SchedulerState) (a : Agent) :
    (setAgent s a).tasks = s.tasks := rfl

theorem agents_publish (s : SchedulerState) (e : Event) :
    (publish s e).agents = s.agents := rfl

theorem events_publish (s : SchedulerState) (e : Event) :
    (publish s e).events = s.events ++ [e] := rfl

theorem find?_map_update (l : List Agent) (i : Nat) (a a2 : Agent)
    (h : l.find? (fun x => x.id == i) = some a) (hid : a2.id = i) :
    (l.map (fun u => if u.id == a2.id then a2 else u)).find?
      (fun x => x.id == i) = some a2 := by
  induction l with
  | nil => simp at h
  | cons x xs ih =>
    by_cases hx : x.id = i
    · have hxa2 : (x.id == a2.id) = true := by simp [hid, hx]
      simp only [List.map, hxa2, if_true]
      exact List.find?_cons_of_pos _ (by simp [hid])
    · have hx2 : ¬((fun y : Agent => y.id == i) x = true) := by simp [hx]
      rw [@List.find?_cons_of_neg Agent (fun y => y.id == i) x xs hx2] at h
      have hxa2 : ¬((x.id == a2.id) = true) := by simp [hid, hx]
      simp only [List.map, if_neg hxa2]
      rw [@List.find?_cons_of_neg Agent (fun y => y.id == i) x
        (xs.map (fun u => if u.id == a2.id then a2 else u)) hx2]
      exact ih h

theorem id_of_getAgent {s : SchedulerState} {i : Nat} {a : Agent}
    (h : getAgent s i = some a) : a.id = i := by
  have := List.find?_some h
  simpa using this

/-! ### C1: dependency cycles -/

/-- A pending task used by the concrete counterexample states. -/
def exPendingTask (i : Nat) : Task :=
  { id := i, description := "t", priority := 0, status := TaskStatus.pending }

def exC1state : SchedulerState :=
  { tasks := [exPendingTask 1, exPendingTask 2] }

/-- C1 counterexample: `add_dependency` performs no cycle check.  Starting
from two pending tasks, adding the edge 1 to 2 and then the closing edge
2 to 1 both succeed, and the resulting dependency graph has a directed
cycle — refuting both the claimed rejection of cycle-closing edges and the
claimed acyclicity after any sequence of `add_dependency` calls. -/
theorem add_dependency_admits_cycle :
    (add_dependency exC1state 1 2).1 = true ∧
    (add_dependency (add_dependency exC1state 1 2).2 2 1).1 = true ∧
    hasCycle (add_dependency (add_dependency exC1state 1 2).2 2 1).2.deps = true := by
  decide

/-- C1 (amended): `add_dependency` succeeds exactly when the edge is not a
self-edge, both endpoint tasks exist, and the pair is not already present
(the unique-pair constraint); on success it appends the edge and it never
touches tasks, agents or events.  No cycle check is performed, so cycles can
be created (see the counterexample). -/
theorem add_dependency_spec (s : SchedulerState) (a b : Nat) :
    ((add_dependency s a b).1 = true ↔
      a ≠ b ∧ (getTask s a).isSome ∧ (getTask s b).isSome ∧ (a, b) ∉ s.deps) ∧
    (add_dependency s a b).2.deps =
      (if (add_dependency s a b).1 = true then s.deps ++ [(a, b)] else s.deps) ∧
    (add_dependency s a b).2.tasks = s.tasks ∧
    (add_dependency s a b).2.agents = s.agents ∧
    (add_dependency s a b).2.events = s.events := by
  unfold add_dependency
  by_cases hab : a = b
  · simp [hab]
  · simp only [if_neg hab]
    cases hA : getTask s a with
    | none => simp [hab]
    | some t =>
      cases hB : getTask s b with
      | none => simp [hab]
      | some u =>
        by_cases hmem : (a, b) ∈ s.deps
        · simp [hmem, hab]
        · simp [hmem, hab]

/-! ### C2: terminal-status immutability -/

def exC2task : Task :=
  { id := 1, description := "done", priority := 0, status := TaskStatus.completed }

def exC2state : SchedulerState := { tasks := [exC2task] }

/-- C2 counterexample: `fail_task` has no terminal-status guard.  Invoked on
a `completed` task it succeeds and rewrites the task's status to
`retrying`, refuting the claim that a terminal task is left unchanged. -/
theorem fail_task_mutates_terminal :
    (fail_task exC2state 1 "late failure" true 3 50).1 = true ∧
    ((fail_task exC2state 1 "late failure" true 3 50).2.tasks.map Task.status) =
      [TaskStatus.retrying] := by
  decide

/-- C2 (amended): for a task in a terminal status, the scheduler operations
`start_task`, `complete_task`, `cancel_task`, `update_task_progress` and
`assign_task` return `false` and leave the whole state unchanged; `fail_task`
however checks no status and does modify such a task (see the
counterexample). -/
theorem terminal_tasks_frozen (s : SchedulerState) (task_id : Nat) (t : Task)
    (hT : getTask s task_id = some t)
    (hterm : t.status = TaskStatus.completed ∨ t.status = TaskStatus.failed ∨
      t.status = TaskStatus.cancelled)
    (now prog : Int) (res : String) (msg : Option String) (agent_id : Nat) :
    start_task s task_id now = (false, s) ∧
    complete_task s task_id res now = (false, s) ∧
    cancel_task s task_id now = (false, s) ∧
    update_task_progress s task_id prog msg now = (false, s) ∧
    assign_task s task_id agent_id now = (false, s) := by
  unfold start_task complete_task cancel_task update_task_progress assign_task
  rw [hT]
  rcases hterm with h | h | h <;> simp [h]

/-- C2 witness: the amended theorem applied to the concrete completed task. -/
theorem terminal_tasks_frozen_witness :
    start_task exC2state 1 60 = (false, exC2state) ∧
    complete_task exC2state 1 "r" 60 = (false, exC2state) ∧
    cancel_task exC2state 1 60 = (false, exC2state) ∧
    update_task_progress exC2state 1 50 none 60 = (false, exC2state) ∧
    assign_task exC2state 1 7 60 = (false, exC2state) :=
  terminal_tasks_frozen exC2state 1 exC2task (by decide) (by decide) 60 50 "r" none 7

/-! ### C3: agent release on fail_task -/

/-- C3 (code bug): in the retry branch `fail_task` clears `task.agent_id`
before the agent-release block tests it, so the formerly owning agent is
never set to `idle` there: the agents table is completely unchanged.  The
`task.failed` event is published with `agent_id = None` and the
pre-increment retry count.  This contradicts the spec ("In both cases the
formerly owning agent is released to idle") and defeats the code's own
"Free up the agent" block in that branch. -/
theorem fail_task_retry_skips_agent_release (s : SchedulerState)
    (task_id aid : Nat) (err : String) (mr : Nat) (now : Int) (t : Task)
    (hT : getTask s task_id = some t) (hAid : t.agent_id = some aid)
    (hR : t.retry_count < mr) :
    (fail_task s task_id err true mr now).1 = true ∧
    (fail_task s task_id err true mr now).2.agents = s.agents ∧
    (fail_task s task_id err true mr now).2.events =
      s.events ++ [Event.task_failed task_id none err t.retry_count] := by
  unfold fail_task
  rw [hT]
  simp only []
  have hcond : True ∧ t.retry_count < mr := ⟨trivial, hR⟩
  rw [if_pos hcond]
  exact ⟨trivial, rfl, rfl⟩

def exC3task : Task :=
  { id := 1, description := "work", priority := 0,
    status := TaskStatus.in_progress, agent_id := some 7 }

def exC3agent : Agent :=
  { id := 7, type := AgentType.research, status := AgentStatus.busy }

def exC3state : SchedulerState :=
  { tasks := [exC3task], agents := [exC3agent] }

/-- C3 witness: the failing input — an `in_progress` task owned by the busy
agent 7, failed with retry; the agents table (still containing the busy
agent) is untouched. -/
theorem fail_task_retry_skips_agent_release_witness :
    (fail_task exC3state 1 "boom" true 3 50).1 = true ∧
    (fail_task exC3state 1 "boom" true 3 50).2.agents = exC3state.agents ∧
    (fail_task exC3state 1 "boom" true 3 50).2.events =
      exC3state.events ++ [Event.task_failed 1 none "boom" 0] :=
  fail_task_retry_skips_agent_release exC3state 1 7 "boom" 3 50 exC3task
    (by decide) (by decide) (by decide)

/-! ### C5: consumer offset commits -/

def exBadHandler : Handler := fun _ => Except.error "boom"

def exC5reg : HandlerRegistry := [("task.assigned", [exBadHandler])]

def exC5msg : KafkaMessage :=
  { topic := "agent.tasks", partition := 0, offset := 41,
    event_type := "task.assigned", payload := "x" }

/-- C5 counterexample: a registered handler for the record's `event_type`
throws, yet the offset is committed anyway (the per-handler `try`/`except`
inside `_process_message` swallows the error) and nothing is forwarded to
`dead.letter` — refuting the claimed no-commit-on-failure and dead-letter
redirect. -/
theorem consume_commits_after_handler_error :
    run_handler exBadHandler exC5msg.payload = false ∧
    (consume_step exC5reg exC5msg).committed_offset = some 42 ∧
    (consume_step exC5reg exC5msg).dead_letter_forward = none :=
  ⟨rfl, rfl, rfl⟩

/-- C5 (amended): for every record, handler exceptions are caught and only
logged inside `_process_message`, so the consumer commits
`offset + 1` unconditionally; no retry counting and no `dead.letter`
redirect exist in the consumer. -/
theorem consume_step_always_commits (reg : HandlerRegistry) (m : KafkaMessage) :
    (consume_step reg m).committed_offset = some (m.offset + 1) ∧
    (consume_step reg m).dead_letter_forward = none := by
  simp [consume_step, process_message]

/-! ### C6: agent status transitions -/

def exC6agent : Agent :=
  { id := 1, type := AgentType.worker, status := AgentStatus.offline }

def exC6state : SchedulerState := { agents := [exC6agent] }

/-- C6 counterexample: `update_agent_status` applies the disallowed
transition `offline` to `busy` (the spec state machine has no such edge)
instead of rejecting it with `INVALID_TRANSITION`. -/
theorem update_agent_status_applies_invalid_transition :
    (getAgent exC6state 1).map Agent.status = some AgentStatus.offline ∧
    ((update_agent_status exC6state 1 AgentStatus.busy 5).1.map Agent.status) =
      some AgentStatus.busy := by
  decide

/-- The record `update_agent_status` writes back for an existing agent:
status applied unconditionally, heartbeat stamped only for `idle`/`busy`. -/
def appliedAgent (a : Agent) (st : AgentStatus) (now : Int) : Agent :=
  { a with
    status := st
    updated_at := now
    last_heartbeat :=
      if st = AgentStatus.idle ∨ st = AgentStatus.busy then now
      else a.last_heartbeat }

/-- C6 (amended): `update_agent_status` validates nothing: for an existing
agent every requested status is applied unconditionally (stamping
`last_heartbeat` when the new status is `idle` or `busy`), and the only
failure mode, returning `none` with the state unchanged, is an unknown
agent id. -/
theorem update_agent_status_spec (s : SchedulerState) (agent_id : Nat)
    (st : AgentStatus) (now : Int) :
    (getAgent s agent_id = none → update_agent_status s agent_id st now = (none, s)) ∧
    ∀ a, getAgent s agent_id = some a →
      update_agent_status s agent_id st now =
        (some (appliedAgent a st now), setAgent s (appliedAgent a st now)) := by
  constructor
  · intro h
    unfold update_agent_status
    rw [h]
  · intro a h
    unfold update_agent_status appliedAgent
    rw [h]
    by_cases hst : st = AgentStatus.idle ∨ st = AgentStatus.busy
    · simp only [if_pos hst]
    · simp only [if_neg hst]

/-- C6 witness: the amended theorem applied to the offline agent receiving
a `busy` request. -/
theorem update_agent_status_spec_witness :
    update_agent_status exC6state 1 AgentStatus.busy 5 =
      (some (appliedAgent exC6agent AgentStatus.busy 5),
       setAgent exC6state (appliedAgent exC6agent AgentStatus.busy 5)) :=
  (update_agent_status_spec exC6state 1 AgentStatus.busy 5).2
    exC6agent (by decide)

/-! ### C7: assignment of retrying tasks -/

/-- C7 (code bug): `assign_task` only accepts `pending` and `queued`, so a
`retrying` task with an idle agent available is rejected and nothing
changes — even though the spec admits `retrying`, `get_ready_tasks` feeds
`retrying` tasks to exactly this call in the scheduler loop, and
`fail_task` clears `agent_id` "to allow reassignment".  Retrying tasks can
therefore never be reassigned. -/
theorem assign_task_rejects_retrying (s : SchedulerState)
    (task_id agent_id : Nat) (now : Int) (t : Task) (a : Agent)
    (hT : getTask s task_id = some t) (hst : t.status = TaskStatus.retrying)
    (hA : getAgent s agent_id = some a) (ha : a.status = AgentStatus.idle) :
    assign_task s task_id agent_id now = (false, s) := by
  unfold assign_task
  rw [hT]
  simp [hst]

def exC7task : Task :=
  { id := 1, description := "retry me", priority := 0,
    status := TaskStatus.retrying, retry_count := 1 }

def exC7agent : Agent :=
  { id := 7, type := AgentType.research, status := AgentStatus.idle }

def exC7state : SchedulerState :=
  { tasks := [exC7task], agents := [exC7agent] }

/-- C7 witness: the failing input — a retrying task and an idle agent. -/
theorem assign_task_rejects_retrying_witness :
    assign_task exC7state 1 7 5 = (false, exC7state) :=
  assign_task_rejects_retrying exC7state 1 7 5 exC7task exC7agent
    (by decide) (by decide) (by decide) (by decide)

/-! ### C10: complete_task frees the agent unconditionally -/

/-- C10: `complete_task` on an `in_progress` task whose `agent_id` points at
an existing agent sets that agent to `idle` with no check of the agent's
previous status — the hypothesis places no constraint on `ag.status`, so
this covers `offline`, `failed`, `stopping` and `starting` owners alike. -/
theorem complete_task_frees_agent_unconditionally (s : SchedulerState)
    (task_id aid : Nat) (res : String) (now : Int) (t : Task) (ag : Agent)
    (hT : getTask s task_id = some t) (hst : t.status = TaskStatus.in_progress)
    (hAid : t.agent_id = some aid) (hA : getAgent s aid = some ag) :
    (complete_task s task_id res now).1 = true ∧
    getAgent (complete_task s task_id res now).2 aid =
      some { ag with status := AgentStatus.idle, updated_at := now } := by
  unfold complete_task
  rw [hT]
  dsimp only
  rw [if_pos hst]
  rw [hAid]
  dsimp only
  rw [hA]
  refine ⟨rfl, ?_⟩
  have hag : ag.id = aid := id_of_getAgent hA
  exact find?_map_update s.agents aid ag _ hA hag

def exC10task : Task :=
  { id := 1, description := "work", priority := 0,
    status := TaskStatus.in_progress, agent_id := some 7 }

def exC10agent : Agent :=
  { id := 7, type := AgentType.worker, status := AgentStatus.offline }

def exC10state : SchedulerState :=
  { tasks := [exC10task], agents := [exC10agent] }

/-- C10 witness: completing a task owned by an `offline` agent still flips
that agent to `idle`. -/
theorem complete_task_frees_agent_unconditionally_witness :
    (complete_task exC10state 1 "ok" 50).1 = true ∧
    getAgent (complete_task exC10state 1 "ok" 50).2 7 =
      some { exC10agent with status := AgentStatus.idle, updated_at := 50 } :=
  complete_task_frees_agent_unconditionally exC10state 1 7 "ok" 50
    exC10task exC10agent (by decide) (by decide) (by decide) (by decide)

/-! ### C4: ready-task ordering -/

def exC4taskA : Task :=
  { id := 1, description := "overdue", priority := 0, status := TaskStatus.pending,
    deadline := some 0, created_at := 0 }

def exC4taskB : Task :=
  { id := 2, description := "later", priority := 5, status := TaskStatus.pending,
    created_at := 1 }

def exC4state : SchedulerState := { tasks := [exC4taskA, exC4taskB] }

/-- C4 counterexample: task 1 has priority 0 and a deadline already in the
past (any reference time is positive, the deadline is 0), task 2 has
priority 5 and no deadline; both are ready with no dependencies.  The
claimed priority-score order puts the overdue task 1 first regardless of
priority, but `get_ready_tasks` reads neither deadlines nor age: it orders
by raw priority descending and returns task 2 first. -/
theorem get_ready_tasks_ignores_deadline :
    (get_ready_tasks exC4state 10).map Task.id = [2, 1] ∧
    exC4taskA.priority < exC4taskB.priority ∧
    exC4taskA.deadline = some 0 ∧ exC4taskB.deadline = none := by
  decide

/-- C4 (amended): `get_ready_tasks` returns at most `limit` tasks, sorted by
priority descending then creation time ascending (the `TaskOrder` key —
deadlines and aging play no role), and every returned task is a stored task
whose status is `pending` or `retrying` and whose dependencies are all
completed; the `limit` is applied to the status-filtered candidates before
the dependency filter. -/
theorem get_ready_tasks_spec (s : SchedulerState) (limit : Nat) :
    (get_ready_tasks s limit).length ≤ limit ∧
    List.Sorted TaskOrder (get_ready_tasks s limit) ∧
    ∀ t ∈ get_ready_tasks s limit,
      (t.status = TaskStatus.pending ∨ t.status = TaskStatus.retrying) ∧
      depsCompleted s t = true ∧ t ∈ s.tasks := by
  unfold get_ready_tasks
  refine ⟨?_, ?_, ?_⟩
  · exact le_trans (List.length_filter_le _ _)
      (by rw [List.length_take]; exact min_le_left _ _)
  · exact List.Pairwise.sublist
      ((List.filter_sublist _).trans (List.take_sublist _ _))
      (List.sorted_insertionSort TaskOrder _)
  · intro t ht
    rw [List.mem_filter] at ht
    obtain ⟨ht1, hdeps⟩ := ht
    have ht2 := (List.take_sublist limit _).subset ht1
    have ht3 := (List.perm_insertionSort TaskOrder _).mem_iff.mp ht2
    rw [List.mem_filter] at ht3
    obtain ⟨hmem, hstat⟩ := ht3
    refine ⟨?_, hdeps, hmem⟩
    simpa using hstat

/-- C4 witness: the amended theorem applied to the concrete two-task state,
with the membership hypothesis discharged for task 2. -/
theorem get_ready_tasks_spec_witness :
    (get_ready_tasks exC4state 10).length ≤ 10 ∧
    ((exC4taskB.status = TaskStatus.pending ∨ exC4taskB.status = TaskStatus.retrying) ∧
      depsCompleted exC4state exC4taskB = true ∧ exC4taskB ∈ exC4state.tasks) :=
  ⟨(get_ready_tasks_spec exC4state 10).1,
   (get_ready_tasks_spec exC4state 10).2.2 exC4taskB (by decide)⟩

/-! ### C8: available-agent selection -/

def exC8agent1 : Agent :=
  { id := 1, type := AgentType.research, status := AgentStatus.idle,
    skills := ["search"], last_heartbeat := 10 }

def exC8agent2 : Agent :=
  { id := 2, type := AgentType.research, status := AgentStatus.idle,
    skills := [], last_heartbeat := 20 }

def exC8state : SchedulerState := { agents := [exC8agent1, exC8agent2] }

/-- C8 counterexample: agent 1 is idle with the required skill but an older
heartbeat; agent 2 is idle, skill-less, with the newest heartbeat.  With
the skill required, the code picks the single most-recent-heartbeat
candidate (agent 2), finds the skill missing and returns no agent even
though agent 1 matches — refuting "returns no agent only when no idle
agent satisfies both conditions".  Without required skills it returns the
most recently heartbeated agent 2, not a least-recently-assigned one. -/
theorem get_available_agent_counterexample :
    get_available_agent exC8state none ["search"] = none ∧
    (get_available_agent exC8state none []).map Agent.id = some 2 ∧
    exC8agent1.status = AgentStatus.idle ∧
    exC8agent1.skills.contains "search" = true ∧
    exC8agent1.last_heartbeat < exC8agent2.last_heartbeat := by
  decide

/-- C8 (amended): when `get_available_agent` returns an agent, that agent is
a stored idle agent matching the type filter whose `last_heartbeat` is
maximal among all idle type-matching agents (most recently heartbeated, not
least recently assigned), and it has every required capability — but the
capability check is applied only to this single candidate, so a `none`
result does not mean no idle agent matches (see the counterexample). -/
theorem get_available_agent_spec (s : SchedulerState) (ty : Option AgentType)
    (req : List String) (a : Agent)
    (h : get_available_agent s ty req = some a) :
    a ∈ s.agents ∧ a.status = AgentStatus.idle ∧ agentTypeMatches ty a = true ∧
    (∀ c ∈ req, a.skills.contains c = true) ∧
    ∀ b ∈ s.agents, b.status = AgentStatus.idle → agentTypeMatches ty b = true →
      b.last_heartbeat ≤ a.last_heartbeat := by
  unfold get_available_agent at h
  dsimp only at h
  cases hh : (List.insertionSort HeartbeatOrder (s.agents.filter (fun x =>
      x.status == AgentStatus.idle && agentTypeMatches ty x))).head? with
  | none => rw [hh] at h; exact absurd h (by simp)
  | some ag =>
    rw [hh] at h
    dsimp only at h
    by_cases hreq : req.all (fun c => ag.skills.contains c) = true
    · rw [if_pos hreq] at h
      obtain ⟨tail, heq⟩ := List.head?_eq_some_iff.mp hh
      have hag : a = ag := by injection h with h; exact h.symm
      subst hag
      have hsorted := List.sorted_insertionSort HeartbeatOrder
        (s.agents.filter (fun x =>
          x.status == AgentStatus.idle && agentTypeMatches ty x))
      rw [heq] at hsorted
      have hmem : a ∈ s.agents.filter (fun x =>
          x.status == AgentStatus.idle && agentTypeMatches ty x) := by
        refine (List.perm_insertionSort HeartbeatOrder _).mem_iff.mp ?_
        rw [heq]
        exact List.mem_cons_self _ _
      rw [List.mem_filter] at hmem
      obtain ⟨hmem, hprops⟩ := hmem
      have hidle : a.status = AgentStatus.idle ∧ agentTypeMatches ty a = true := by
        constructor
        · have := (Bool.and_eq_true _ _).mp hprops
          simpa using this.1
        · exact ((Bool.and_eq_true _ _).mp hprops).2
      refine ⟨hmem, hidle.1, hidle.2, ?_, ?_⟩
      · intro c hc
        exact List.all_eq_true.mp hreq c hc
      · intro b hb hbidle hbty
        have hbf : b ∈ s.agents.filter (fun x =>
            x.status == AgentStatus.idle && agentTypeMatches ty x) := by
          rw [List.mem_filter]
          exact ⟨hb, by simp [hbidle, hbty]⟩
        have hbs := (List.perm_insertionSort HeartbeatOrder _).mem_iff.mpr hbf
        rw [heq] at hbs
        rcases List.mem_cons.mp hbs with hba | hbt
        · rw [hba]
        · exact List.rel_of_sorted_cons hsorted b hbt
    · rw [if_neg hreq] at h
      exact absurd h (by simp)

/-- C8 witness: the amended theorem applied with no required capabilities,
where the concrete state returns agent 2. -/
theorem get_available_agent_spec_witness :
    exC8agent2 ∈ exC8state.agents ∧ exC8agent2.status = AgentStatus.idle ∧
    agentTypeMatches none exC8agent2 = true ∧
    (∀ c ∈ ([] : List String), exC8agent2.skills.contains c = true) ∧
    ∀ b ∈ exC8state.agents, b.status = AgentStatus.idle →
      agentTypeMatches none b = true →
      b.last_heartbeat ≤ exC8agent2.last_heartbeat :=
  get_available_agent_spec exC8state none [] exC8agent2 (by decide)

/-! ### C9: webhook signature -/

theorem length_bytesBE (k : Nat) : ∀ n : Nat, (bytesBE k n).length = k := by
  induction k with
  | zero => intro n; rfl
  | succ k ih => intro n; simp [bytesBE, ih]

theorem length_sha256Bytes (msg : List Nat) : (sha256Bytes msg).length = 32 := by
  unfold sha256Bytes
  simp [length_bytesBE]

theorem length_hmacSha256 (key msg : List Nat) :
    (hmacSha256 key msg).length = 32 := by
  unfold hmacSha256
  exact length_sha256Bytes _

theorem hexdigest_chars (bytes : List Nat) :
    (hexdigest bytes).data.all (fun c => hexChars.contains c) = true := by
  unfold hexdigest
  induction bytes with
  | nil => rfl
  | cons b bs ih =>
    show ((byteToHex b ++ bs.foldr (fun x acc => byteToHex x ++ acc) []).all
      (fun c => hexChars.contains c)) = true
    rw [List.all_append]
    refine (Bool.and_eq_true _ _).mpr ⟨?_, ih⟩
    have hm : ∀ n : Nat, hexDigit n ∈ hexChars := fun n =>
      List.get_mem hexChars (n % 16) (hexIndex_lt n)
    simp [byteToHex]
    exact ⟨hm _, hm _⟩

theorem hexdigest_length (bytes : List Nat) :
    (hexdigest bytes).length = 2 * bytes.length := by
  unfold hexdigest
  induction bytes with
  | nil => rfl
  | cons b bs ih =>
    show (byteToHex b ++ bs.foldr (fun x acc => byteToHex x ++ acc) []).length =
      2 * (b :: bs).length
    rw [List.length_append]
    have ih2 : (bs.foldr (fun x acc => byteToHex x ++ acc) []).length =
        2 * bs.length := ih
    rw [ih2]
    simp [byteToHex, List.length_cons]
    ring

/-- C9: the webhook signature is the lowercase hexadecimal HMAC-SHA256
digest — recomputing over the same payload and secret verifies
(`verify_signature (sign_payload p s) p s = true`), every character of the
signature is one of the sixteen lowercase hex digits, and it has the 64
characters of a 32-byte SHA-256 digest. -/
theorem webhook_signature_roundtrip (p s : String) :
    verify_signature (sign_payload p s) p s = true ∧
    (sign_payload p s).data.all (fun c => hexChars.contains c) = true ∧
    (sign_payload p s).length = 64 := by
  refine ⟨?_, ?_, ?_⟩
  · simp [verify_signature]
  · exact hexdigest_chars _
  · unfold sign_payload
    rw [hexdigest_length, length_hmacSha256]

end Orchestration

